import Mathlib

/-!
Shallow embedding of the judging core of `backend/app/services/executor.py`:
the `CodeExecutor` class with its sanitizer (`_sanitize_code`), per-case
runner (`_run_single_case`) and batch entry point (`run`), together with the
exception hierarchy (`ExecutionError`, `SanitizationError`).

Child processes are modelled by an environment (oracle) mapping the materialized
solution-file contents and the piped stdin to a process outcome (completion
with exit code / stdout / stderr / elapsed time, or wall-clock timeout with
elapsed time).  Machine floats appear only as the rendered decimal text of
`timeout_seconds` inside the timeout error message, so the configuration keeps
that rendering as a string field.
-/

instance {ε α : Type} [DecidableEq ε] [DecidableEq α] : DecidableEq (Except ε α) := fun x y =>
  match x, y with
  | .ok a, .ok b => if h : a = b then .isTrue (by rw [h]) else .isFalse (by simp [h])
  | .error a, .error b => if h : a = b then .isTrue (by rw [h]) else .isFalse (by simp [h])
  | .ok _, .error _ => .isFalse (by simp)
  | .error _, .ok _ => .isFalse (by simp)

namespace Executor

/-- Characters stripped by Python `str.strip()` (ASCII whitespace; the
embedding restricts text to the ASCII range). -/
def isPySpace (c : Char) : Bool :=
  c = ' ' || c = '\t' || c = '\n' || c = '\r' || c = '\x0b' || c = '\x0c'

/-- Python `s.strip()`: drop leading and trailing whitespace. -/
def pyStrip (s : String) : String :=
  ⟨((s.data.dropWhile isPySpace).reverse.dropWhile isPySpace).reverse⟩

/-- Python slicing `s[:n]` on a `str`: the first `n` characters. -/
def pyTake (n : Nat) (s : String) : String :=
  ⟨s.data.take n⟩

/-- A word character for the regex `\b` boundary: `[A-Za-z0-9_]`. -/
def isWordChar (c : Char) : Bool :=
  c.isAlphanum || c = '_'

/-- Match the regex `\s*KW\s+MOD\b` at a given position of the text
(the position is a MULTILINE `^` anchor: start of string or just after a
newline).  Because `KW` and `MOD` begin with non-whitespace characters, the
greedy/backtracking search of `re` collapses to: skip all whitespace, read
`KW`, skip at least one whitespace character, read `MOD`, then require a
non-word character or the end of the text. -/
def matchImportAt (kw mod : List Char) (s : List Char) : Bool :=
  let s1 := s.dropWhile isPySpace
  if kw.isPrefixOf s1 then
    let s2 := s1.drop kw.length
    let s3 := s2.dropWhile isPySpace
    if s3.length < s2.length then
      if mod.isPrefixOf s3 then
        match s3.drop mod.length with
        | [] => true
        | c :: _ => !(isWordChar c)
      else false
    else false
  else false

/-- Scan for a MULTILINE `^` anchor after a newline and try the deny-list
pattern there. -/
def searchImportAux (kw mod : List Char) : List Char → Bool
  | [] => false
  | c :: rest =>
    (c = '\n' && matchImportAt kw mod rest) || searchImportAux kw mod rest

/-- `re.compile(r"^\s*KW\s+MOD\b", re.MULTILINE).search`: try the pattern at
the start of the string and after every newline. -/
def searchImport (kw mod : String) (s : String) : Bool :=
  matchImportAt kw.data mod.data s.data || searchImportAux kw.data mod.data s.data

/-- Does `pat` occur as a contiguous sublist starting at some position? -/
def listInfix (pat : List Char) : List Char → Bool
  | [] => pat.isPrefixOf []
  | c :: rest => pat.isPrefixOf (c :: rest) || listInfix pat rest

/-- Substring search for a literal pattern (regex with no metacharacters). -/
def containsSubstr (pat s : String) : Bool :=
  listInfix pat.data s.data

/-- The five compiled regexes of `BANNED_PATTERNS`, as an inductive tag so the
deny list is a first-class value. -/
inductive BannedPattern where
  | importOs
  | fromOs
  | importSubprocess
  | fromSubprocess
  | dunderImport
deriving DecidableEq

/-- `pattern.search(text)`, specialised to each compiled pattern:
`r"^\s*import\s+os\b"` (MULTILINE), `r"^\s*from\s+os\b"` (MULTILINE),
`r"^\s*import\s+subprocess\b"` (MULTILINE), `r"^\s*from\s+subprocess\b"`
(MULTILINE) and the literal `r"__import__"`. -/
def BannedPattern.search : BannedPattern → String → Bool
  | .importOs, s => searchImport "import" "os" s
  | .fromOs, s => searchImport "from" "os" s
  | .importSubprocess, s => searchImport "import" "subprocess" s
  | .fromSubprocess, s => searchImport "from" "subprocess" s
  | .dunderImport, s => containsSubstr "__import__" s

/-- `BANNED_PATTERNS` in source order. -/
def BANNED_PATTERNS : List BannedPattern :=
  [.importOs, .fromOs, .importSubprocess, .fromSubprocess, .dunderImport]

/-- `GUARD_PREFIX` prepended to sanitized code before it is written to the
solution artifact. -/
def GUARD_PREFIX : String := "import sys\nsys.setrecursionlimit(1000)\n"

/-- The Python exception classes raised by the executor module:
`ExecutionError(Exception)` and `SanitizationError(ExecutionError)`. -/
inductive PyExcClass where
  | exception
  | executionError
  | sanitizationError
deriving DecidableEq

/-- Method resolution order of each class, read off the `class C(B):`
declarations: `SanitizationError` derives from `ExecutionError`, which
derives from `Exception`. -/
def PyExcClass.mro : PyExcClass → List PyExcClass
  | .exception => [.exception]
  | .executionError => [.executionError, .exception]
  | .sanitizationError => [.sanitizationError, .executionError, .exception]

/-- A raised exception: its class plus the message it was constructed with. -/
structure PyError where
  cls : PyExcClass
  msg : String
deriving DecidableEq

/-- `except H:` catches a raised error `e` iff `H` appears in the MRO of the
error's class. -/
def catches (handler : PyExcClass) (e : PyError) : Bool :=
  handler ∈ e.cls.mro

/-- `ExecutorTestCase` dataclass. -/
structure ExecutorTestCase where
  id : Int
  input_data : String
  expected_output : String
  is_hidden : Bool := false
deriving DecidableEq

/-- `ExecutorCaseResult` dataclass. -/
structure ExecutorCaseResult where
  test_case_id : Int
  passed : Bool
  actual_output : Option String
  stdout : String
  stderr : String
  error : Option String
  runtime_ms : Nat
deriving DecidableEq

/-- Result of `subprocess.run` when the child finishes before the timeout. -/
structure ProcResult where
  exitCode : Int
  stdout : String
  stderr : String
  runtimeMs : Nat
deriving DecidableEq

/-- Observable outcome of one `subprocess.run` call: normal completion, or
`subprocess.TimeoutExpired` after the recorded elapsed milliseconds. -/
inductive ProcOutcome where
  | completed (r : ProcResult)
  | timedOut (runtimeMs : Nat)
deriving DecidableEq

/-- Process environment: what the child process does, as a function of the
solution-file contents and the text piped to stdin. -/
def ProcEnv : Type := String → String → ProcOutcome

/-- Executor configuration: `output_char_limit`, and the decimal rendering of
`timeout_seconds` as produced by the f-string
`f"Execution timed out after {self.timeout_seconds} seconds"`
(e.g. `"3.0"` for the default). -/
structure Config where
  timeoutRepr : String
  outputCharLimit : Nat

/-- `CodeExecutor._sanitize_code`: strip, reject empty, reject any deny-list
match with one generic message, otherwise return the stripped text. -/
def sanitizeCode (code : String) : Except PyError String :=
  let stripped := pyStrip code
  if stripped = "" then
    .error ⟨.sanitizationError, "Solution code cannot be empty"⟩
  else if BANNED_PATTERNS.any (fun p => p.search stripped) then
    .error ⟨.sanitizationError, "Use of restricted modules or patterns is not allowed"⟩
  else
    .ok stripped

/-- `CodeExecutor._run_single_case`, given the outcome of its single
`subprocess.run` call. -/
def runSingleCase (cfg : Config) (outcome : ProcOutcome) (case_ : ExecutorTestCase) :
    ExecutorCaseResult :=
  match outcome with
  | .timedOut elapsedMs =>
    { test_case_id := case_.id
      passed := false
      actual_output := none
      stdout := ""
      stderr := ""
      error := some ("Execution timed out after " ++ cfg.timeoutRepr ++ " seconds")
      runtime_ms := elapsedMs }
  | .completed r =>
    if r.stdout.length > cfg.outputCharLimit || r.stderr.length > cfg.outputCharLimit then
      { test_case_id := case_.id
        passed := false
        actual_output := none
        stdout := pyTake cfg.outputCharLimit r.stdout
        stderr := pyTake cfg.outputCharLimit r.stderr
        error := some "Output exceeded allowed limit"
        runtime_ms := r.runtimeMs }
    else
      let actual_output := if r.stdout = "" then "" else pyStrip r.stdout
      let expected_output := pyStrip case_.expected_output
      let passed := r.exitCode = 0 && actual_output = expected_output
      let error_msg : Option String :=
        if passed then none
        else some (if pyStrip r.stderr = "" then "Output mismatch" else pyStrip r.stderr)
      { test_case_id := case_.id
        passed := passed
        actual_output := some actual_output
        stdout := r.stdout
        stderr := r.stderr
        error := error_msg
        runtime_ms := r.runtimeMs }

/-- Outcome of one `CodeExecutor.run` call: the returned verdict list or the
raised error, plus the number of child processes that were spawned. -/
structure RunTrace where
  result : Except PyError (List ExecutorCaseResult)
  spawned : Nat

/-- `CodeExecutor.run`: sanitize first, then reject an empty case sequence,
then materialize `GUARD_PREFIX + sanitized_code` once and run every case in
order, one child process per case. -/
def run (cfg : Config) (env : ProcEnv) (code : String)
    (test_cases : List ExecutorTestCase) : RunTrace :=
  match sanitizeCode code with
  | .error e => ⟨.error e, 0⟩
  | .ok sanitized_code =>
    if test_cases.isEmpty then
      ⟨.error ⟨.executionError, "No test cases to execute"⟩, 0⟩
    else
      let contents := GUARD_PREFIX ++ sanitized_code
      ⟨.ok (test_cases.map (fun case_ =>
          runSingleCase cfg (env contents case_.input_data) case_)),
        test_cases.length⟩

/-- Two process outcomes with the same observable behaviour: on completion,
equal exit code, stdout and stderr; both timing out also agrees.  The elapsed
wall-clock time may differ between the two runs. -/
def ProcOutcome.sameBehavior : ProcOutcome → ProcOutcome → Prop
  | .completed r1, .completed r2 =>
    r1.exitCode = r2.exitCode ∧ r1.stdout = r2.stdout ∧ r1.stderr = r2.stderr
  | .timedOut _, .timedOut _ => True
  | _, _ => False

/-- Verdicts agreeing on every field the determinism property promises:
`test_case_id`, `passed`, `actual_output` and `error` (`runtime_ms` exempt). -/
def sameVerdict (a b : ExecutorCaseResult) : Prop :=
  a.test_case_id = b.test_case_id ∧ a.passed = b.passed ∧
  a.actual_output = b.actual_output ∧ a.error = b.error

/-- Default-flavoured configuration: timeout 3.0 s, cap 10000 characters. -/
def cfgDefault : Config := ⟨"3.0", 10000⟩

/-- A small-cap configuration for boundary scenarios: cap 3 characters. -/
def cfgCap3 : Config := ⟨"3.0", 3⟩

/-- Environment whose child prints `1`, writes no stderr, exits 0 in 5 ms. -/
def envPrintOne : ProcEnv := fun _ _ => .completed ⟨0, "1\n", "", 5⟩

/-- Same observable behaviour as `envPrintOne` but 9 ms elapsed. -/
def envPrintOneSlow : ProcEnv := fun _ _ => .completed ⟨0, "1\n", "", 9⟩

/-- Environment whose child always hits the wall-clock timeout. -/
def envLoops : ProcEnv := fun _ _ => .timedOut 3001

/-- A concrete test case expecting output `1`. -/
def caseOne : ExecutorTestCase := ⟨1, "", "1", false⟩

/-- A concrete hidden test case expecting output `5`. -/
def caseTwo : ExecutorTestCase := ⟨2, "2 3", "5", true⟩

/-- A concrete test case expecting output `abc`. -/
def caseThree : ExecutorTestCase := ⟨3, "", "abc", false⟩

/-- The verdicts `envPrintOne` produces on `[caseOne, caseTwo]`. -/
def resOrder : List ExecutorCaseResult :=
  [⟨1, true, some "1", "1\n", "", none, 5⟩,
   ⟨2, false, some "1", "1\n", "", some "Output mismatch", 5⟩]

/-! Helper lemmas shared by the claim theorems. -/

/-- `stdout.strip() if stdout else ""` collapses to plain stripping, since
stripping the empty string is the empty string. -/
theorem actual_output_eq (s : String) :
    (if s = "" then "" else pyStrip s) = pyStrip s := by
  by_cases h : s = ""
  · subst h
    rfl
  · simp [h]

/-- On sanitized code and a non-empty case list, `run` returns the mapped
verdict list and spawns one process per case. -/
theorem run_ok_eq (cfg : Config) (env : ProcEnv) (code s : String)
    (test_cases : List ExecutorTestCase)
    (hs : sanitizeCode code = .ok s) (hne : test_cases ≠ []) :
    run cfg env code test_cases =
      ⟨.ok (test_cases.map (fun case_ =>
          runSingleCase cfg (env ( GUARD_PREFIX ++ s) case_.input_data) case_)),
        test_cases.length⟩ := by
  unfold run
  rw [hs]
  simp [List.isEmpty_iff, hne]

/-- The verdict always carries the id of the case it was produced for. -/
theorem runSingleCase_test_case_id (cfg : Config) (o : ProcOutcome)
    (case_ : ExecutorTestCase) :
    (runSingleCase cfg o case_).test_case_id = case_.id := by
  cases o with
  | timedOut t => rfl
  | completed r =>
    simp only [runSingleCase]
    split
    · rfl
    · rfl

/-- Within-cap completions take the normal classification branch. -/
theorem runSingleCase_within_cap (cfg : Config) (r : ProcResult)
    (case_ : ExecutorTestCase)
    (hout : r.stdout.length ≤ cfg.outputCharLimit)
    (herr : r.stderr.length ≤ cfg.outputCharLimit) :
    runSingleCase cfg (.completed r) case_ =
      { test_case_id := case_.id
        passed := r.exitCode = 0 && pyStrip r.stdout = pyStrip case_.expected_output
        actual_output := some (pyStrip r.stdout)
        stdout := r.stdout
        stderr := r.stderr
        error :=
          if (r.exitCode = 0 && pyStrip r.stdout = pyStrip case_.expected_output) then none
          else some (if pyStrip r.stderr = "" then "Output mismatch" else pyStrip r.stderr)
        runtime_ms := r.runtimeMs } := by
  have h1 : ¬ (cfg.outputCharLimit < r.stdout.length) := not_lt.mpr hout
  have h2 : ¬ (cfg.outputCharLimit < r.stderr.length) := not_lt.mpr herr
  unfold runSingleCase
  simp [h1, h2, actual_output_eq]

/-- The sanitizer only ever raises `SanitizationError`. -/
theorem sanitizeCode_error_cls (code : String) (e : PyError)
    (h : sanitizeCode code = .error e) : e.cls = .sanitizationError := by
  simp only [sanitizeCode] at h
  split at h
  · cases h
    rfl
  · split at h
    · cases h
      rfl
    · cases h

/-- Pointwise related images give `Forall₂`-related maps. -/
theorem forall₂_map_map {α β γ : Type} (R : β → γ → Prop) (f : α → β) (g : α → γ) :
    ∀ l : List α, (∀ x ∈ l, R (f x) (g x)) → List.Forall₂ R (l.map f) (l.map g)
  | [], _ => List.Forall₂.nil
  | x :: xs, h =>
    List.Forall₂.cons (h x (by simp))
      (forall₂_map_map R f g xs (fun y hy => h y (by simp [hy])))

/-- Outcomes with the same observable behaviour classify to verdicts agreeing
on everything but `runtime_ms`. -/
theorem runSingleCase_sameVerdict (cfg : Config) (o1 o2 : ProcOutcome)
    (case_ : ExecutorTestCase) (h : o1.sameBehavior o2) :
    sameVerdict (runSingleCase cfg o1 case_) (runSingleCase cfg o2 case_) := by
  cases o1 with
  | timedOut t1 =>
    cases o2 with
    | timedOut t2 => exact ⟨rfl, rfl, rfl, rfl⟩
    | completed r2 => exact absurd h (by simp [ProcOutcome.sameBehavior])
  | completed r1 =>
    cases o2 with
    | timedOut t2 => exact absurd h (by simp [ProcOutcome.sameBehavior])
    | completed r2 =>
      obtain ⟨he, hs, ht⟩ := h
      cases r1 with
      | mk e1 s1 t1 m1 =>
        cases r2 with
        | mk e2 s2 t2 m2 =>
          simp only at he hs ht
          subst he
          subst hs
          subst ht
          unfold runSingleCase
          by_cases hc : (s1.length > cfg.outputCharLimit || t1.length > cfg.outputCharLimit : Bool) = true
          · simp only [hc, if_true]
            exact ⟨rfl, rfl, rfl, rfl⟩
          · simp only [hc, if_false]
            exact ⟨rfl, rfl, rfl, rfl⟩

/-! Claim theorems. -/

/-- C1: whenever `run` returns normally, the verdict list has exactly the
length of the input case sequence and the i-th verdict carries the i-th
case's id, whatever the individual outcomes were. -/
theorem run_preserves_order (cfg : Config) (env : ProcEnv) (code : String)
    (test_cases : List ExecutorTestCase) (res : List ExecutorCaseResult)
    (h : (run cfg env code test_cases).result = .ok res) :
    res.length = test_cases.length ∧
    ∀ (i : Nat) (hi : i < res.length) (hi2 : i < test_cases.length),
      (res.get ⟨i, hi⟩).test_case_id = (test_cases.get ⟨i, hi2⟩).id := by
  unfold run at h
  cases hs : sanitizeCode code with
  | error e =>
    rw [hs] at h
    simp at h
  | ok s =>
    rw [hs] at h
    by_cases hne : test_cases.isEmpty
    · simp [hne] at h
    · simp only [hne, Bool.false_eq_true, if_false] at h
      simp only [Except.ok.injEq] at h
      subst h
      refine ⟨by simp, ?_⟩
      intro i hi hi2
      simp [List.get_map, runSingleCase_test_case_id]

/-- Witness for C1 at a concrete successful batch of two cases. -/
theorem run_preserves_order_witness :
    resOrder.length = ([caseOne, caseTwo] : List ExecutorTestCase).length ∧
    ∀ (i : Nat) (hi : i < resOrder.length)
      (hi2 : i < ([caseOne, caseTwo] : List ExecutorTestCase).length),
      (resOrder.get ⟨i, hi⟩).test_case_id =
        (([caseOne, caseTwo] : List ExecutorTestCase).get ⟨i, hi2⟩).id :=
  run_preserves_order cfgDefault envPrintOne "print(1)" [caseOne, caseTwo] resOrder
    (by decide)

/-- C2: a completion within timeout and cap is classified by outer-trim
string comparison: `actual_output` is the trimmed stdout, `passed` holds iff
the exit code is 0 and trimmed stdout equals trimmed expected output, and a
failing verdict's `error` is the trimmed stderr when non-empty and the
literal `Output mismatch` otherwise. -/
theorem runSingleCase_normal_classification (cfg : Config) (r : ProcResult)
    (case_ : ExecutorTestCase)
    (hout : r.stdout.length ≤ cfg.outputCharLimit)
    (herr : r.stderr.length ≤ cfg.outputCharLimit) :
    (runSingleCase cfg (.completed r) case_).actual_output =
      some (pyStrip r.stdout) ∧
    ((runSingleCase cfg (.completed r) case_).passed = true ↔
      (r.exitCode = 0 ∧ pyStrip r.stdout = pyStrip case_.expected_output)) ∧
    ((runSingleCase cfg (.completed r) case_).passed = false →
      (runSingleCase cfg (.completed r) case_).error =
        some (if pyStrip r.stderr = "" then "Output mismatch"
              else pyStrip r.stderr)) := by
  rw [runSingleCase_within_cap cfg r case_ hout herr]
  refine ⟨rfl, by simp, ?_⟩
  intro hfail
  simp only at hfail
  simp [hfail]

/-- Witness for C2: non-zero exit with noisy stderr on matching output. -/
theorem runSingleCase_normal_classification_witness :
    (runSingleCase cfgDefault (.completed ⟨1, "1\n", " boom \n", 4⟩) caseOne).actual_output =
      some (pyStrip "1\n") ∧
    ((runSingleCase cfgDefault (.completed ⟨1, "1\n", " boom \n", 4⟩) caseOne).passed = true ↔
      ((1 : Int) = 0 ∧ pyStrip "1\n" = pyStrip caseOne.expected_output)) ∧
    ((runSingleCase cfgDefault (.completed ⟨1, "1\n", " boom \n", 4⟩) caseOne).passed = false →
      (runSingleCase cfgDefault (.completed ⟨1, "1\n", " boom \n", 4⟩) caseOne).error =
        some (if pyStrip " boom \n" = "" then "Output mismatch"
              else pyStrip " boom \n")) :=
  runSingleCase_normal_classification cfgDefault ⟨1, "1\n", " boom \n", 4⟩ caseOne
    (by decide) (by decide)

/-- C3: the sanitizer trims the text, rejects emptiness with the dedicated
message, rejects any deny-list match with one fixed generic message that
never identifies the matched pattern, and otherwise returns exactly the
trimmed text (it is a pure classification, with no other effect). -/
theorem sanitizeCode_spec (code : String) :
    (pyStrip code = "" →
      sanitizeCode code =
        .error ⟨.sanitizationError, "Solution code cannot be empty"⟩) ∧
    ((∃ p ∈ BANNED_PATTERNS, p.search (pyStrip code) = true) →
      pyStrip code ≠ "" →
      sanitizeCode code =
        .error ⟨.sanitizationError,
          "Use of restricted modules or patterns is not allowed"⟩) ∧
    ((∀ p ∈ BANNED_PATTERNS, p.search (pyStrip code) = false) →
      pyStrip code ≠ "" →
      sanitizeCode code = .ok (pyStrip code)) := by
  refine ⟨?_, ?_, ?_⟩
  · intro h
    simp [sanitizeCode, h]
  · rintro ⟨p, hp, hm⟩ hne
    have hany : (BANNED_PATTERNS.any fun q => q.search (pyStrip code)) = true :=
      List.any_eq_true.mpr ⟨p, hp, hm⟩
    simp [sanitizeCode, hne, hany]
  · intro hall hne
    have hany : (BANNED_PATTERNS.any fun q => q.search (pyStrip code)) = false := by
      rw [Bool.eq_false_iff]
      intro hc
      obtain ⟨p, hp, hm⟩ := List.any_eq_true.mp hc
      exact absurd hm (by simp [hall p hp])
    simp [sanitizeCode, hne, hany]

/-- Witness for C3: `import os` is rejected with the generic message. -/
theorem sanitizeCode_spec_witness :
    sanitizeCode "import os" =
      .error ⟨.sanitizationError,
        "Use of restricted modules or patterns is not allowed"⟩ :=
  (sanitizeCode_spec "import os").2.1 ⟨.importOs, by decide, by decide⟩ (by decide)

/-- C4 counterexample: `run` sanitizes before checking for an empty case
sequence, so banned code with an empty case list raises the sanitizer's
restricted-pattern error, not `ExecutionError` with the no-cases message —
the claim's "for every source code text" fails. -/
theorem run_empty_cases_counterexample :
    (run cfgDefault envPrintOne "import os" []).result =
      .error ⟨.sanitizationError,
        "Use of restricted modules or patterns is not allowed"⟩ ∧
    ¬ (run cfgDefault envPrintOne "import os" []).result =
      .error ⟨.executionError, "No test cases to execute"⟩ :=
  ⟨by decide, by decide⟩

/-- C4 amended: with an empty case sequence no child process is ever spawned,
and for every code the sanitizer accepts, the call fails with
`ExecutionError` carrying the no-cases message (the emptiness check indeed
precedes any use of sanitization's result). -/
theorem run_empty_cases_amended (cfg : Config) (env : ProcEnv) (code : String) :
    (run cfg env code []).spawned = 0 ∧
    ∀ s, sanitizeCode code = .ok s →
      (run cfg env code []).result =
        .error ⟨.executionError, "No test cases to execute"⟩ := by
  constructor
  · unfold run
    cases hs : sanitizeCode code with
    | error e => rfl
    | ok s => rfl
  · intro s hs
    unfold run
    rw [hs]
    rfl

/-- Witness for C4 amended at accepted code. -/
theorem run_empty_cases_amended_witness :
    (run cfgDefault envPrintOne "print(1)" []).spawned = 0 ∧
    (run cfgDefault envPrintOne "print(1)" []).result =
      .error ⟨.executionError, "No test cases to execute"⟩ :=
  ⟨(run_empty_cases_amended cfgDefault envPrintOne "print(1)").1,
    (run_empty_cases_amended cfgDefault envPrintOne "print(1)").2 "print(1)" (by decide)⟩

/-- C5: a per-case timeout yields a failed verdict with absent
`actual_output`, empty captured streams, the timeout message rendering the
configured timeout, and the elapsed time as `runtime_ms`; and a timeout never
escapes `run` as an exception — on sanitized code and a non-empty batch,
`run` still returns a verdict list whatever the per-case outcomes. -/
theorem runSingleCase_timeout_props (cfg : Config) (case_ : ExecutorTestCase)
    (elapsedMs : Nat) :
    runSingleCase cfg (.timedOut elapsedMs) case_ =
      ⟨case_.id, false, none, "", "",
        some ("Execution timed out after " ++ cfg.timeoutRepr ++ " seconds"),
        elapsedMs⟩ ∧
    ∀ (env : ProcEnv) (code : String) (cases : List ExecutorTestCase)
      (s : String), sanitizeCode code = .ok s → cases ≠ [] →
      ∃ rs, (run cfg env code cases).result = .ok rs := by
  refine ⟨rfl, ?_⟩
  intro env code cases s hs hne
  exact ⟨_, by rw [run_ok_eq cfg env code s cases hs hne]⟩

/-- Witness for C5 with an always-looping child. -/
theorem runSingleCase_timeout_props_witness :
    (runSingleCase cfgDefault (.timedOut 3001) caseOne).error =
      some "Execution timed out after 3.0 seconds" ∧
    ∃ rs, (run cfgDefault envLoops "print(1)" [caseOne]).result = .ok rs := by
  have h := runSingleCase_timeout_props cfgDefault caseOne 3001
  refine ⟨by rw [h.1]; rfl, ?_⟩
  exact h.2 envLoops "print(1)" [caseOne] "print(1)" (by decide) (by decide)

/-- C6: if either captured stream exceeds the cap, the verdict fails with
absent `actual_output`, both streams cut to their first cap-many characters,
and the fixed overflow message; a stream at least cap long comes back with
length exactly the cap. -/
theorem runSingleCase_overflow (cfg : Config) (r : ProcResult)
    (case_ : ExecutorTestCase)
    (h : cfg.outputCharLimit < r.stdout.length ∨
         cfg.outputCharLimit < r.stderr.length) :
    runSingleCase cfg (.completed r) case_ =
      ⟨case_.id, false, none, pyTake cfg.outputCharLimit r.stdout,
        pyTake cfg.outputCharLimit r.stderr,
        some "Output exceeded allowed limit", r.runtimeMs⟩ ∧
    (cfg.outputCharLimit ≤ r.stdout.length →
      (runSingleCase cfg (.completed r) case_).stdout.length =
        cfg.outputCharLimit) ∧
    (cfg.outputCharLimit ≤ r.stderr.length →
      (runSingleCase cfg (.completed r) case_).stderr.length =
        cfg.outputCharLimit) := by
  have hc : (decide (r.stdout.length > cfg.outputCharLimit) ||
      decide (r.stderr.length > cfg.outputCharLimit)) = true := by
    rcases h with h | h
    · simp [h]
    · simp [h]
  have heq : runSingleCase cfg (.completed r) case_ =
      ⟨case_.id, false, none, pyTake cfg.outputCharLimit r.stdout,
        pyTake cfg.outputCharLimit r.stderr,
        some "Output exceeded allowed limit", r.runtimeMs⟩ := by
    simp only [runSingleCase]
    rw [if_pos hc]
  refine ⟨heq, ?_, ?_⟩
  · intro hlen
    rw [heq]
    show (List.take cfg.outputCharLimit r.stdout.data).length = cfg.outputCharLimit
    rw [List.length_take]
    exact Nat.min_eq_left hlen
  · intro hlen
    rw [heq]
    show (List.take cfg.outputCharLimit r.stderr.data).length = cfg.outputCharLimit
    rw [List.length_take]
    exact Nat.min_eq_left hlen

/-- Witness for C6: a 5-character stdout against a 3-character cap. -/
theorem runSingleCase_overflow_witness :
    runSingleCase cfgCap3 (.completed ⟨0, "abcde", "x", 7⟩) caseOne =
      ⟨1, false, none, "abc", "x", some "Output exceeded allowed limit", 7⟩ ∧
    (runSingleCase cfgCap3 (.completed ⟨0, "abcde", "x", 7⟩) caseOne).stdout.length =
      cfgCap3.outputCharLimit := by
  have h := runSingleCase_overflow cfgCap3 ⟨0, "abcde", "x", 7⟩ caseOne
    (Or.inl (by decide))
  exact ⟨h.1.trans (by decide), h.2.1 (by decide)⟩

/-- C7: a sanitizer rejection propagates out of `run` unchanged, the batch is
aborted with no verdicts and no child process is spawned. -/
theorem run_propagates_sanitization (cfg : Config) (env : ProcEnv)
    (code : String) (cases : List ExecutorTestCase) (e : PyError)
    (h : sanitizeCode code = .error e) :
    run cfg env code cases = ⟨.error e, 0⟩ := by
  unfold run
  rw [h]

/-- Witness for C7 at banned code. -/
theorem run_propagates_sanitization_witness :
    run cfgDefault envPrintOne "import os" [caseOne] =
      ⟨.error ⟨.sanitizationError,
        "Use of restricted modules or patterns is not allowed"⟩, 0⟩ :=
  run_propagates_sanitization cfgDefault envPrintOne "import os" [caseOne]
    ⟨.sanitizationError, "Use of restricted modules or patterns is not allowed"⟩
    (by decide)

/-- C8: two runs of the same `(code, test_cases)` against process behaviours
agreeing on exit code, stdout, stderr and timeout outcome (elapsed times free
to differ) either raise the same error, or return verdict lists agreeing
pointwise on `test_case_id`, `passed`, `actual_output` and `error`. -/
theorem run_deterministic (cfg : Config) (env1 env2 : ProcEnv) (code : String)
    (cases : List ExecutorTestCase)
    (h : ∀ contents input, (env1 contents input).sameBehavior (env2 contents input)) :
    (∃ e, (run cfg env1 code cases).result = .error e ∧
          (run cfg env2 code cases).result = .error e) ∨
    (∃ l1 l2, (run cfg env1 code cases).result = .ok l1 ∧
              (run cfg env2 code cases).result = .ok l2 ∧
              List.Forall₂ sameVerdict l1 l2) := by
  unfold run
  cases hs : sanitizeCode code with
  | error e => exact .inl ⟨e, rfl, rfl⟩
  | ok s =>
    by_cases hne : cases.isEmpty
    · simp only [hne, if_true]
      exact .inl ⟨⟨.executionError, "No test cases to execute"⟩, rfl, rfl⟩
    · simp only [hne, Bool.false_eq_true, if_false]
      refine .inr ⟨_, _, rfl, rfl, ?_⟩
      exact forall₂_map_map sameVerdict _ _ cases
        (fun c _ => runSingleCase_sameVerdict cfg _ _ c (h _ _))

/-- Witness for C8: two environments differing only in elapsed times. -/
theorem run_deterministic_witness :
    (∃ e, (run cfgDefault envPrintOne "print(1)" [caseOne]).result = .error e ∧
          (run cfgDefault envPrintOneSlow "print(1)" [caseOne]).result = .error e) ∨
    (∃ l1 l2, (run cfgDefault envPrintOne "print(1)" [caseOne]).result = .ok l1 ∧
              (run cfgDefault envPrintOneSlow "print(1)" [caseOne]).result = .ok l2 ∧
              List.Forall₂ sameVerdict l1 l2) :=
  run_deterministic cfgDefault envPrintOne envPrintOneSlow "print(1)" [caseOne]
    (fun _ _ => ⟨rfl, rfl, rfl⟩)

/-- C9: `SanitizationError` derives from `ExecutionError`, so every error
`run` raises — sanitizer rejection or structural no-cases failure alike — is
caught by a handler for `ExecutionError` alone. -/
theorem sanitization_caught_as_execution (cfg : Config) (env : ProcEnv)
    (code : String) (cases : List ExecutorTestCase) :
    PyExcClass.executionError ∈ PyExcClass.sanitizationError.mro ∧
    ∀ e, (run cfg env code cases).result = .error e →
      catches .executionError e = true := by
  refine ⟨by decide, ?_⟩
  intro e he
  unfold run at he
  cases hs : sanitizeCode code with
  | error e0 =>
    rw [hs] at he
    simp only [Except.error.injEq] at he
    subst he
    have hcls := sanitizeCode_error_cls code e0 hs
    simp [catches, hcls, PyExcClass.mro]
  | ok s =>
    rw [hs] at he
    by_cases hne : cases.isEmpty
    · simp only [hne, if_true, Except.error.injEq] at he
      subst he
      decide
    · simp [hne] at he

/-- Witness for C9 at banned code. -/
theorem sanitization_caught_as_execution_witness :
    PyExcClass.executionError ∈ PyExcClass.sanitizationError.mro ∧
    catches .executionError
      ⟨.sanitizationError,
        "Use of restricted modules or patterns is not allowed"⟩ = true :=
  ⟨(sanitization_caught_as_execution cfgDefault envPrintOne "import os" [caseOne]).1,
    (sanitization_caught_as_execution cfgDefault envPrintOne "import os" [caseOne]).2
      ⟨.sanitizationError, "Use of restricted modules or patterns is not allowed"⟩
      (by decide)⟩

/-- C10: streams of length at most the cap — equality included — do not
trigger the overflow classification: the verdict keeps both streams whole and
is produced by the normal pass/mismatch rule. -/
theorem runSingleCase_cap_inclusive (cfg : Config) (r : ProcResult)
    (case_ : ExecutorTestCase)
    (hout : r.stdout.length ≤ cfg.outputCharLimit)
    (herr : r.stderr.length ≤ cfg.outputCharLimit) :
    (runSingleCase cfg (.completed r) case_).stdout = r.stdout ∧
    (runSingleCase cfg (.completed r) case_).stderr = r.stderr ∧
    (runSingleCase cfg (.completed r) case_).actual_output =
      some (pyStrip r.stdout) ∧
    ((runSingleCase cfg (.completed r) case_).passed = true ↔
      (r.exitCode = 0 ∧ pyStrip r.stdout = pyStrip case_.expected_output)) := by
  rw [runSingleCase_within_cap cfg r case_ hout herr]
  exact ⟨rfl, rfl, rfl, by simp⟩

/-- Witness for C10 at a stream of exactly the cap length. -/
theorem runSingleCase_cap_inclusive_witness :
    (runSingleCase cfgCap3 (.completed ⟨0, "abc", "", 7⟩) caseThree).stdout = "abc" ∧
    (runSingleCase cfgCap3 (.completed ⟨0, "abc", "", 7⟩) caseThree).stderr = "" ∧
    (runSingleCase cfgCap3 (.completed ⟨0, "abc", "", 7⟩) caseThree).actual_output =
      some (pyStrip "abc") ∧
    ((runSingleCase cfgCap3 (.completed ⟨0, "abc", "", 7⟩) caseThree).passed = true ↔
      ((0 : Int) = 0 ∧ pyStrip "abc" = pyStrip caseThree.expected_output)) :=
  runSingleCase_cap_inclusive cfgCap3 ⟨0, "abc", "", 7⟩ caseThree
    (by decide) (by decide)

end Executor
